import Mathlib

/- Shallow embedding of the Snake Deluxe game simulation (src/Sake_game.py).

   The grid data model, the Game state and its methods, and the body of the
   fixed-step simulation loop are translated function by function from the
   Python source.  Randomness (random.randrange, random.random, random.choice)
   is modelled by explicit oracle streams: each call site consumes the next
   oracle value, and each unbounded rejection loop of the source becomes
   structural recursion over a finite oracle stream, returning none when the
   stream is exhausted.  pygame.time.get_ticks() is modelled by an explicit
   now : Int argument.  The Python floats 1.4, 0.6 and 1.5 are modelled as
   the rationals 7/5, 3/5 and 3/2; every product taken with them here is
   positive, so Python int() (truncation toward zero) coincides with the
   floor used below.  Rendering, fonts, sounds and particles are cosmetic
   and carry no simulation state that the claims mention; they are omitted. -/

namespace Snake

-- Config and constants block of the source.
def WIDTH : Int := 600
def HEIGHT : Int := 400
def GRID : Int := 20
def FPS_BASE : ℚ := 12
def MAX_FPS : Int := 30
def LIVES_START : Int := 3
def LEVEL_UP_EVERY : Nat := 5
def POWERUP_DURATION : Int := 4500
def POWERUP_TTL : Int := 9000
def SPECIAL_FOOD_EVERY : Int := 10
def SPECIAL_FOOD_TTL : Int := 6000
def SPECIAL_FOOD_VALUE : Nat := 5

-- A grid position [x, y] of the source.
abbrev Cell := Int × Int

-- pygame.Rect with integer coordinates.
structure Rect where
  x : Int
  y : Int
  w : Int
  h : Int
deriving DecidableEq

-- pygame.Rect.colliderect: strict overlap on both axes.
def Rect.collide (a b : Rect) : Bool :=
  decide (a.x < b.x + b.w) && decide (a.y < b.y + b.h) &&
  decide (a.x + a.w > b.x) && decide (a.y + a.h > b.y)

-- The GRID x GRID rectangle of a cell, as built at each call site.
def rectOfCell (p : Cell) : Rect :=
  ⟨p.1, p.2, GRID, GRID⟩

-- POWER_TYPES kinds: speed, slow, bonus.
inductive PKind where
  | speed
  | slow
  | bonus
deriving DecidableEq

-- PowerUp: kind, grid position, spawn_time (colors are cosmetic).
structure PowerUp where
  kind : PKind
  pos : Cell
  spawn_time : Int
deriving DecidableEq

-- PowerUp.rect.
def PowerUp.rect (p : PowerUp) : Rect :=
  ⟨p.pos.1, p.pos.2, GRID, GRID⟩

-- PowerUp.alive at the given tick count.
def PowerUp.alive (p : PowerUp) (now : Int) : Bool :=
  decide (now - p.spawn_time < POWERUP_TTL)

-- MovingObstacle: rect plus horizontal velocity.
structure MovingObstacle where
  rect : Rect
  dx : Int
deriving DecidableEq

-- MovingObstacle.update: advance, then flip velocity at the field edges.
def MovingObstacle.update (m : MovingObstacle) : MovingObstacle :=
  let r : Rect := { m.rect with x := m.rect.x + m.dx }
  if r.x + r.w ≥ WIDTH ∨ r.x ≤ 0 then { rect := r, dx := -m.dx }
  else { rect := r, dx := m.dx }

/- Game state.  The snake list keeps the source convention: the head is the
   LAST element and the tail the first.  Fields start_time, tick_accum and
   the never-read alive flag carry no behavior the claims mention and are
   omitted; particles are cosmetic and omitted. -/
structure Game where
  score : Nat
  high : Nat
  level : Nat
  lives : Int
  snake : List Cell
  dir : Int × Int
  next_dir : Int × Int
  food : Cell
  special_food : Option Cell
  special_spawned_at : Int
  last_special_check : Int
  powerups : List PowerUp
  active_power : Option (PKind × Int)
  static_obstacles : List Rect
  moving_obstacles : List MovingObstacle
  paused : Bool
deriving DecidableEq

-- Game.reset_after_hit: lose a life, respawn the snake, clear the effect.
def Game.reset_after_hit (g : Game) : Game :=
  { g with
    lives := g.lives - 1
    snake := [(WIDTH / 2, HEIGHT / 2 + GRID), (WIDTH / 2, HEIGHT / 2)]
    dir := (0, -GRID)
    next_dir := (0, -GRID)
    active_power := none }

/- Game.spawn_food validity test after construction, when the obstacle
   attributes exist: not on an obstacle, not on the snake, below the UI bar. -/
def foodFree (g : Game) (pos : Cell) : Bool :=
  let bad := g.static_obstacles.any (fun o => Rect.collide o (rectOfCell pos)) ||
             g.moving_obstacles.any (fun m => Rect.collide m.rect (rectOfCell pos))
  decide (pos ∈ g.snake) = false && !bad && decide (pos.2 > GRID * 2)

/- Game.spawn_food after construction: first stream cell passing foodFree.
   The source loops until success; stream exhaustion is modelled as none. -/
def spawnFood (g : Game) : List Cell → Option Cell
  | [] => none
  | pos :: rest => if foodFree g pos then some pos else spawnFood g rest

/- Game.spawn_food as called from reset_all, before the obstacle attributes
   exist: the hasattr/getattr guards make both obstacle tests vacuous, so
   only the snake and the top UI band are checked. -/
def spawnFoodInit (snake : List Cell) : List Cell → Option Cell
  | [] => none
  | pos :: rest =>
    if decide (pos ∈ snake) = false && decide (pos.2 > GRID * 2) then some pos
    else spawnFoodInit snake rest

-- Game.apply_power: bonus scores immediately; no level recompute here.
def Game.apply_power (g : Game) (kind : PKind) (now : Int) : Game :=
  let endt := now + POWERUP_DURATION
  let g1 := if kind = PKind.bonus then { g with score := g.score + 3 } else g
  { g1 with active_power := some (kind, endt) }

-- Game.power_multiplier: lazy expiry clears the effect during the query.
def Game.power_multiplier (g : Game) (now : Int) : ℚ × Game :=
  match g.active_power with
  | none => (1, g)
  | some (kind, endt) =>
    if now > endt then (1, { g with active_power := none })
    else (if kind = PKind.speed then 7 / 5
          else if kind = PKind.slow then 3 / 5 else 1, g)

-- Game.current_fps: level-based speed, power modifier, then the clamp.
def Game.current_fps (g : Game) (now : Int) : Int × Game :=
  let base : ℚ := FPS_BASE + ((g.level : ℚ) - 1) * (3 / 2)
  let pm := g.power_multiplier now
  (max 6 (min MAX_FPS (Int.floor (base * pm.1))), pm.2)

-- Game.update_level.
def Game.update_level (g : Game) : Game :=
  { g with level := 1 + g.score / LEVEL_UP_EVERY }

-- Keys the source reacts to; other records leave the state unchanged.
inductive Key where
  | up
  | down
  | left
  | right
  | p
  | other
deriving DecidableEq

-- Game.handle_input: direction requests gated on the committed axis.
def Game.handle_input (g : Game) (k : Key) : Game :=
  match k with
  | Key.up => if g.dir.2 = 0 then { g with next_dir := (0, -GRID) } else g
  | Key.down => if g.dir.2 = 0 then { g with next_dir := (0, GRID) } else g
  | Key.left => if g.dir.1 = 0 then { g with next_dir := (-GRID, 0) } else g
  | Key.right => if g.dir.1 = 0 then { g with next_dir := (GRID, 0) } else g
  | Key.p => { g with paused := !g.paused }
  | Key.other => g

-- The head cell the next move will append: snake[-1] plus next_dir.
def Game.newHead (g : Game) : Cell :=
  let h := g.snake.getLastD (0, 0)
  (h.1 + g.next_dir.1, h.2 + g.next_dir.2)

-- Game.move_snake: commit the buffered direction, append the new head.
def Game.move_snake (g : Game) : Game :=
  { g with dir := g.next_dir, snake := g.snake ++ [g.newHead] }

-- Game.trim_tail: drop the oldest segment unless the snake grew.
def Game.trim_tail (g : Game) (grew : Bool) : Game :=
  if grew then g else { g with snake := g.snake.tail }

-- Game.check_collisions on the current snake: walls, self, obstacles.
def Game.check_collisions (g : Game) : Bool :=
  let head := g.snake.getLastD (0, 0)
  let rhead := rectOfCell head
  decide (head.1 < 0) || decide (head.1 ≥ WIDTH) ||
  decide (head.2 < GRID * 2) || decide (head.2 ≥ HEIGHT) ||
  decide (head ∈ g.snake.dropLast) ||
  g.static_obstacles.any (fun o => Rect.collide rhead o) ||
  g.moving_obstacles.any (fun m => Rect.collide rhead m.rect)

-- Game.maybe_spawn_powerup: on a successful roll, spawn at a fresh cell.
def Game.maybe_spawn_powerup (g : Game) (roll : Bool) (kind : PKind)
    (stream : List Cell) (now : Int) : Option Game :=
  if roll then
    (spawnFood g stream).map
      (fun pos => { g with powerups := g.powerups ++ [⟨kind, pos, now⟩] })
  else some g

-- Game.eat_food: exact cell match; score, level, respawn, power-up roll.
def Game.eat_food (g : Game) (now : Int) (stream : List Cell) (roll : Bool)
    (kind : PKind) (pustream : List Cell) : Option (Bool × Game) :=
  let head := g.snake.getLastD (0, 0)
  if head = g.food then
    let g1 := ({ g with score := g.score + 1 }).update_level
    (spawnFood g1 stream).bind
      (fun f =>
        (({ g1 with food := f }).maybe_spawn_powerup roll kind pustream now).map
          (fun g2 => (true, g2)))
  else some (false, g)

-- Game.eat_special_food: exact cell match on the optional special food.
def Game.eat_special_food (g : Game) : Bool × Game :=
  match g.special_food with
  | none => (false, g)
  | some sf =>
    let head := g.snake.getLastD (0, 0)
    if head = sf then
      (true, { ({ g with score := g.score + SPECIAL_FOOD_VALUE }).update_level with
               special_food := none })
    else (false, g)

-- The scan of Game.pickup_powerup: first power-up hit by the head rect,
-- returned together with the list with that element removed.
def pickupScan (rhead : Rect) : List PowerUp → Option (PowerUp × List PowerUp)
  | [] => none
  | p :: ps =>
    if Rect.collide rhead p.rect then some (p, ps)
    else
      match pickupScan rhead ps with
      | none => none
      | some (q, rest) => some (q, p :: rest)

-- Game.pickup_powerup: apply the first colliding power-up and remove it.
def Game.pickup_powerup (g : Game) (now : Int) : Bool × Game :=
  let head := g.snake.getLastD (0, 0)
  match pickupScan (rectOfCell head) g.powerups with
  | none => (false, g)
  | some (p, rest) => (true, { g.apply_power p.kind now with powerups := rest })

-- Game.update: moving obstacles, special food spawn and expiry, power-up
-- TTL cleanup.  Particles are cosmetic and omitted.
-- The TTL expiry of the special food inside Game.update.
def Game.expire_special (g : Game) (now : Int) : Game :=
  match g.special_food with
  | some _ =>
    if now - g.special_spawned_at > SPECIAL_FOOD_TTL then { g with special_food := none }
    else g
  | none => g

-- The power-up TTL cleanup inside Game.update.
def Game.clean_powerups (g : Game) (now : Int) : Game :=
  { g with powerups := g.powerups.filter (fun p => p.alive now) }

def Game.update (g : Game) (now : Int) (specialRoll : Bool)
    (stream : List Cell) : Option Game :=
  let g1 := { g with moving_obstacles := g.moving_obstacles.map MovingObstacle.update }
  let g2o : Option Game :=
    if g1.special_food = none ∧ now - g1.last_special_check > SPECIAL_FOOD_EVERY * 1000 then
      if specialRoll then
        (spawnFood g1 stream).map
          (fun sf => { g1 with special_food := some sf, special_spawned_at := now,
                               last_special_check := now })
      else some { g1 with last_special_check := now }
    else some g1
  g2o.map (fun g2 => (g2.expire_special now).clean_powerups now)

-- main, line with game.high update on the transition to game over.
def recordHigh (g : Game) : Game :=
  { g with high := max g.high g.score }

-- Oracle for one simulation step: the tick count and the random draws the
-- step may consume, in source order.
structure StepOracle where
  now : Int
  foodStream : List Cell
  puRoll : Bool
  puKind : PKind
  puStream : List Cell
  specialRoll : Bool
  specialStream : List Cell
deriving DecidableEq

-- Observable outcome of one simulation step.
structure StepOut where
  ateFood : Bool
  ateSpecial : Bool
  collided : Bool
  state : Game
deriving DecidableEq

/- One iteration of the fixed-step inner loop of main: move, eat checks,
   power-up pickup, tail trim, collision disposition, world update.  On game
   over (lives at zero after the hit) the source shows the game-over screen
   and either quits or replaces the Game; the returned state is the old
   instance after the high-score update, and Game.update is not run on it. -/
def stepGame (g : Game) (o : StepOracle) : Option StepOut :=
  let g1 := g.move_snake
  (g1.eat_food o.now o.foodStream o.puRoll o.puKind o.puStream).bind
    (fun p =>
      let a := p.1
      let q := p.2.eat_special_food
      let b := q.1
      let g4 := (q.2.pickup_powerup o.now).2
      let g5 := g4.trim_tail (a || b)
      if g5.check_collisions then
        let g6 := g5.reset_after_hit
        if g6.lives ≤ 0 then some ⟨a, b, true, recordHigh g6⟩
        else
          (g6.update o.now o.specialRoll o.specialStream).map
            (fun g7 => ⟨a, b, true, g7⟩)
      else
        (g5.update o.now o.specialRoll o.specialStream).map
          (fun g7 => ⟨a, b, false, g7⟩))

-- One candidate draw of the static-obstacle loop: position and the size
-- choices that would be used if the position is accepted.
structure StaticCand where
  x : Int
  y : Int
  w : Int
  h : Int
deriving DecidableEq

-- Central spawn band excluded for static obstacles.
def inCentralBand (x : Int) : Bool :=
  decide (WIDTH / 2 - 3 * GRID ≤ x) && decide (x ≤ WIDTH / 2 + 3 * GRID)

/- The static part of make_obstacles: place n obstacles, skipping candidates
   whose position was already taken or lies in the central band.  Stream
   exhaustion before n placements is modelled as none. -/
def placeStatics : Nat → List Cell → List StaticCand → Option (List Rect)
  | 0, _, _ => some []
  | _ + 1, _, [] => none
  | n + 1, taken, c :: rest =>
    if decide ((c.x, c.y) ∈ taken) = false && !inCentralBand c.x then
      match placeStatics n ((c.x, c.y) :: taken) rest with
      | none => none
      | some rs => some (⟨c.x, c.y, c.w, c.h⟩ :: rs)
    else placeStatics (n + 1) taken rest

-- One draw of the moving-obstacle loop: row, width, velocity.
structure MovCand where
  y : Int
  w : Int
  dx : Int
deriving DecidableEq

-- The moving part of make_obstacles.
def makeMoving (cs : List MovCand) : List MovingObstacle :=
  cs.map (fun c => ⟨⟨GRID, c.y, c.w, GRID⟩, c.dx⟩)

-- Oracle for Game.reset_all: tick count and the random draws, source order.
structure ResetOracle where
  now : Int
  foodStream : List Cell
  statics : List StaticCand
  movings : List MovCand
deriving DecidableEq

/- Game.reset_all, the body of the Game constructor.  The food is spawned on
   line 225 of the source, before the obstacle attributes are created on
   line 231, so the initial spawn checks only the snake and the UI band
   (spawnFoodInit) and the obstacles are placed with no regard for the food. -/
def reset_all (o : ResetOracle) : Option Game :=
  let snake0 : List Cell := [(WIDTH / 2, HEIGHT / 2 + GRID), (WIDTH / 2, HEIGHT / 2)]
  match spawnFoodInit snake0 o.foodStream with
  | none => none
  | some f =>
    match placeStatics 6 [] o.statics with
    | none => none
    | some statics =>
      some
        { score := 0
          high := 0
          level := 1
          lives := LIVES_START
          snake := snake0
          dir := (0, -GRID)
          next_dir := (0, -GRID)
          food := f
          special_food := none
          special_spawned_at := 0
          last_special_check := o.now
          powerups := []
          active_power := none
          static_obstacles := statics
          moving_obstacles := makeMoving o.movings
          paused := false }

-- ===== Spec-side rate formulas (for the refinement comparison of C3) =====

-- The step-rate formula as the spec states it: the base rate is clamped
-- first and the active-effect multiplier is applied to the clamped value.
def specStepRate (level : Nat) (m : ℚ) : ℚ :=
  max 6 (min (MAX_FPS : ℚ) (FPS_BASE + ((level : ℚ) - 1) * (3 / 2))) * m

-- The rate formula the code computes: the multiplier is applied to the
-- unclamped base, the product truncated to an integer, and the clamp to
-- [6, MAX_FPS] applied last.
def stepRateMultFirst (level : Nat) (m : ℚ) : Int :=
  max 6 (min MAX_FPS (Int.floor ((FPS_BASE + ((level : ℚ) - 1) * (3 / 2)) * m)))

-- ===== Direction subsystem (C5) =====

-- The exact opposite of a direction delta.
def opposite (d : Int × Int) : Int × Int :=
  (-d.1, -d.2)

-- The four unit grid deltas a direction can take.
abbrev validDir (d : Int × Int) : Prop :=
  d = (0, -GRID) ∨ d = (0, GRID) ∨ d = (-GRID, 0) ∨ d = (GRID, 0)

-- Direction invariant: committed and buffered directions are unit deltas
-- and the buffered one is never the reversal of the committed one.
abbrev DirInv (g : Game) : Prop :=
  validDir g.dir ∧ validDir g.next_dir ∧ g.next_dir ≠ opposite g.dir

-- Events that touch the direction state: a key record, a simulation step
-- committing the buffer (Game.move_snake), a life-loss reset.
inductive GEvent where
  | key (k : Key)
  | step
  | hit
deriving DecidableEq

def applyEvent (g : Game) : GEvent → Game
  | GEvent.key k => g.handle_input k
  | GEvent.step => g.move_snake
  | GEvent.hit => g.reset_after_hit

def runEvents (g : Game) : List GEvent → Game
  | [] => g
  | e :: rest => runEvents (applyEvent g e) rest

-- ===== Concrete states and oracles used by witnesses and counterexamples =====

-- A plain mid-game state: spawn snake, no effects, no obstacles in play.
def gBase : Game :=
  { score := 0
    high := 0
    level := 1
    lives := 3
    snake := [(300, 220), (300, 200)]
    dir := (0, -20)
    next_dir := (0, -20)
    food := (500, 300)
    special_food := none
    special_spawned_at := 0
    last_special_check := 0
    powerups := []
    active_power := none
    static_obstacles := []
    moving_obstacles := []
    paused := false }

-- Score 4 and the matching level 1: the state before a bonus pickup.
def gC1 : Game :=
  { gBase with score := 4, level := 1 }

-- Level 15 (score 70) with an active slow effect running until tick 1000.
def gC3 : Game :=
  { gBase with level := 15, score := 70, active_power := some (PKind.slow, 1000) }

-- Score 5 at the moment the last life is lost.
def gC4 : Game :=
  { gBase with score := 5 }

-- A four-cell loop about to re-enter the cell its tail is vacating.
def gLoop : Game :=
  { gBase with
    snake := [(300, 200), (300, 180), (320, 180), (320, 200)]
    dir := (-20, 0)
    next_dir := (-20, 0) }

-- A three-cell snake one step below the UI band, about to hit it.
def gWallHit : Game :=
  { gBase with snake := [(300, 80), (300, 60), (300, 40)] }

-- The spawn snake with the food directly on its head cell.
def gEat : Game :=
  { gBase with food := (300, 200) }

-- The state Game.eat_food produces from gEat with respawn cell (100, 100).
def gEatRes : Game :=
  { gEat with score := 1, level := 1, food := (100, 100) }

-- A three-cell snake about to eat the food one cell ahead.
def gEatStep : Game :=
  { gBase with snake := [(300, 240), (300, 220), (300, 200)], food := (300, 180) }

-- The step outcome for gEatStep under oStepFood.
def outEatStep : StepOut :=
  ⟨true, false, false,
   { gEatStep with
     snake := [(300, 240), (300, 220), (300, 200), (300, 180)]
     score := 1
     level := 1
     food := (100, 100) }⟩

-- The step outcome for gLoop under oStep0.
def outLoop : StepOut :=
  ⟨false, false, false,
   { gLoop with snake := [(300, 180), (320, 180), (320, 200), (300, 200)] }⟩

-- A step oracle that draws nothing.
def oStep0 : StepOracle :=
  { now := 0
    foodStream := []
    puRoll := false
    puKind := PKind.speed
    puStream := []
    specialRoll := false
    specialStream := [] }

-- A step oracle offering (100, 100) as the food respawn cell.
def oStepFood : StepOracle :=
  { oStep0 with foodStream := [(100, 100)] }

-- A reset oracle whose first obstacle candidate lands exactly on the cell
-- the initial food was already given, with enough further valid candidates.
def oReset : ResetOracle :=
  { now := 0
    foodStream := [(100, 100)]
    statics := [⟨100, 100, 40, 20⟩, ⟨60, 60, 40, 20⟩, ⟨60, 120, 40, 20⟩,
                ⟨60, 180, 40, 20⟩, ⟨60, 240, 40, 20⟩, ⟨60, 300, 40, 20⟩]
    movings := [⟨360, 40, 2⟩, ⟨300, 60, 3⟩] }

-- The game reset_all builds from oReset.
def gReset : Game :=
  { score := 0
    high := 0
    level := 1
    lives := 3
    snake := [(300, 220), (300, 200)]
    dir := (0, -20)
    next_dir := (0, -20)
    food := (100, 100)
    special_food := none
    special_spawned_at := 0
    last_special_check := 0
    powerups := []
    active_power := none
    static_obstacles := [⟨100, 100, 40, 20⟩, ⟨60, 60, 40, 20⟩, ⟨60, 120, 40, 20⟩,
                         ⟨60, 180, 40, 20⟩, ⟨60, 240, 40, 20⟩, ⟨60, 300, 40, 20⟩]
    moving_obstacles := [⟨⟨20, 360, 40, 20⟩, 2⟩, ⟨⟨20, 300, 60, 20⟩, 3⟩]
    paused := false }

-- An event trace: buffer left, commit, buffer up, commit, request down.
def evs5 : List GEvent :=
  [GEvent.key Key.left, GEvent.step, GEvent.key Key.up, GEvent.step, GEvent.key Key.down]

-- ===== Theorems =====

-- Helper: maybe_spawn_powerup only ever appends to the power-up list.
theorem maybe_spawn_powerup_preserves {g : Game} {roll : Bool} {kind : PKind}
    {stream : List Cell} {now : Int} {g2 : Game}
    (h : g.maybe_spawn_powerup roll kind stream now = some g2) :
    g2.score = g.score ∧ g2.level = g.level ∧ g2.snake = g.snake ∧ g2.lives = g.lives
    ∧ g2.special_food = g.special_food ∧ g2.static_obstacles = g.static_obstacles
    ∧ g2.moving_obstacles = g.moving_obstacles ∧ g2.food = g.food
    ∧ g2.dir = g.dir ∧ g2.next_dir = g.next_dir := by
  unfold Game.maybe_spawn_powerup at h
  split at h
  · rw [Option.map_eq_some'] at h
    obtain ⟨pos, -, h⟩ := h
    subst h
    exact ⟨rfl, rfl, rfl, rfl, rfl, rfl, rfl, rfl, rfl, rfl⟩
  · simp only [Option.some.injEq] at h
    subst h
    exact ⟨rfl, rfl, rfl, rfl, rfl, rfl, rfl, rfl, rfl, rfl⟩

/-- Claim C8 (confirmed): when a collision is detected while lives remain,
reset_after_hit decrements lives by one, restores the snake segments and
both direction fields to the spawn configuration, clears the active effect,
and leaves score, level, static and moving obstacles, food, special food
and the power-up collection unchanged. -/
theorem c8_life_loss_frame (g : Game) (_h : 0 < g.lives) :
    (g.reset_after_hit).lives = g.lives - 1
    ∧ (g.reset_after_hit).snake = [(WIDTH / 2, HEIGHT / 2 + GRID), (WIDTH / 2, HEIGHT / 2)]
    ∧ (g.reset_after_hit).dir = (0, -GRID)
    ∧ (g.reset_after_hit).next_dir = (0, -GRID)
    ∧ (g.reset_after_hit).active_power = none
    ∧ (g.reset_after_hit).score = g.score
    ∧ (g.reset_after_hit).level = g.level
    ∧ (g.reset_after_hit).static_obstacles = g.static_obstacles
    ∧ (g.reset_after_hit).moving_obstacles = g.moving_obstacles
    ∧ (g.reset_after_hit).food = g.food
    ∧ (g.reset_after_hit).special_food = g.special_food
    ∧ (g.reset_after_hit).powerups = g.powerups :=
  ⟨rfl, rfl, rfl, rfl, rfl, rfl, rfl, rfl, rfl, rfl, rfl, rfl⟩

/-- Witness for C8 at the concrete state gBase with 3 lives. -/
theorem c8_life_loss_frame_witness :
    0 < gBase.lives ∧ (gBase.reset_after_hit).lives = gBase.lives - 1 :=
  ⟨by decide, (c8_life_loss_frame gBase (by decide)).1⟩

/-- Claim C6 (confirmed): power_multiplier returns 1 when no effect is set;
when the effect has expired (now strictly past the expiry) it returns 1 and
clears the effect, and a second query on the result returns 1 again with no
effect present; an unexpired effect leaves the state unchanged and yields
7/5 for Speed, 3/5 for Slow and 1 for Bonus. -/
theorem c6_power_multiplier_cases (g : Game) (now now2 : Int) :
    (g.active_power = none → g.power_multiplier now = (1, g))
    ∧ (∀ k e, g.active_power = some (k, e) → now > e →
        (g.power_multiplier now).1 = 1
        ∧ ((g.power_multiplier now).2).active_power = none
        ∧ ((g.power_multiplier now).2).power_multiplier now2
            = (1, (g.power_multiplier now).2))
    ∧ (∀ k e, g.active_power = some (k, e) → ¬now > e →
        (g.power_multiplier now).2 = g
        ∧ (g.power_multiplier now).1
            = (if k = PKind.speed then (7 : ℚ) / 5
               else if k = PKind.slow then (3 : ℚ) / 5 else 1)) := by
  refine ⟨fun h => ?_, fun k e h hgt => ?_, fun k e h hle => ?_⟩
  · simp [Game.power_multiplier, h]
  · simp [Game.power_multiplier, h, hgt]
  · simp [Game.power_multiplier, h, hle]

/-- Witness for C6: an expired Speed effect at tick 200 and a live Speed
effect at tick 50, both on concrete states. -/
theorem c6_power_multiplier_witness :
    ((({ gBase with active_power := some (PKind.speed, 100) }).power_multiplier 200).1 = 1
     ∧ ((({ gBase with active_power := some (PKind.speed, 100) }).power_multiplier 200).2).active_power = none
     ∧ ((({ gBase with active_power := some (PKind.speed, 100) }).power_multiplier 200).2).power_multiplier 200
         = (1, (({ gBase with active_power := some (PKind.speed, 100) }).power_multiplier 200).2))
    ∧ ((({ gBase with active_power := some (PKind.speed, 100) }).power_multiplier 50).2
         = { gBase with active_power := some (PKind.speed, 100) }
       ∧ (({ gBase with active_power := some (PKind.speed, 100) }).power_multiplier 50).1
           = (if PKind.speed = PKind.speed then (7 : ℚ) / 5
              else if PKind.speed = PKind.slow then (3 : ℚ) / 5 else 1)) :=
  ⟨(c6_power_multiplier_cases { gBase with active_power := some (PKind.speed, 100) } 200 200).2.1
      PKind.speed 100 rfl (by decide),
   (c6_power_multiplier_cases { gBase with active_power := some (PKind.speed, 100) } 50 50).2.2
      PKind.speed 100 rfl (by decide)⟩

/-- Claim C3 counterexample: at level 15 with the Slow effect active, the
code yields rate 19 while the formula of the spec (clamp the base first,
multiply after) yields 18, so the claimed equality fails. -/
theorem c3_clamp_first_counterexample :
    ((gC3.current_fps 0).1 : ℚ) ≠ specStepRate gC3.level (gC3.power_multiplier 0).1 := by
  have hpm : gC3.power_multiplier 0 = (3 / 5, gC3) := by
    simp [gC3, gBase, Game.power_multiplier]
  have hl : gC3.level = 15 := rfl
  have h1 : (gC3.current_fps 0).1 = 19 := by
    have hc : (gC3.current_fps 0).1
        = max 6 (min MAX_FPS (Int.floor ((FPS_BASE + ((gC3.level : ℚ) - 1) * (3 / 2))
            * (gC3.power_multiplier 0).1))) := rfl
    rw [hc, hpm, hl]
    have hf : Int.floor ((FPS_BASE + (((15 : Nat) : ℚ) - 1) * (3 / 2)) * ((3 : ℚ) / 5, gC3).1)
        = 19 := by
      norm_num [FPS_BASE]
    rw [hf]
    norm_num [MAX_FPS]
  have h2 : specStepRate gC3.level (gC3.power_multiplier 0).1 = 18 := by
    rw [specStepRate, hpm, hl]
    norm_num [FPS_BASE, MAX_FPS]
  rw [h1, h2]
  norm_num

/-- Claim C3 as amended: the current step rate equals the clamp applied
AFTER the multiplication, namely max(6, min(MAX_FPS, floor(base * mult)))
where base = FPS_BASE + (level-1) * 3/2 is unclamped. -/
theorem c3_rate_mult_then_clamp (g : Game) (now : Int) :
    (g.current_fps now).1 = stepRateMultFirst g.level (g.power_multiplier now).1 := rfl

/-- Claim C1 counterexample: from the consistent state with score 4 and
level 1, applying a Bonus power-up raises the score to 7 while the level
stays 1, but 1 + 7 / LEVEL_UP_EVERY = 2, so the claimed invariant fails
immediately after this score-changing operation. -/
theorem c1_bonus_counterexample :
    (gC1.apply_power PKind.bonus 0).level
      ≠ 1 + (gC1.apply_power PKind.bonus 0).score / LEVEL_UP_EVERY := by
  decide

/-- Claim C1 as amended: after eat_food and after eat_special_food report a
successful eat, level = 1 + score / LEVEL_UP_EVERY holds; apply_power never
recomputes the level, while a Bonus adds 3 to the score, so the invariant
can be false right after a Bonus is applied. -/
theorem c1_level_recompute (g : Game) :
    (∀ now stream roll kind pustream a g2,
        g.eat_food now stream roll kind pustream = some (a, g2) → a = true →
        g2.level = 1 + g2.score / LEVEL_UP_EVERY)
    ∧ ((g.eat_special_food).1 = true →
        (g.eat_special_food).2.level = 1 + (g.eat_special_food).2.score / LEVEL_UP_EVERY)
    ∧ (∀ kind now, (g.apply_power kind now).level = g.level)
    ∧ (∀ now, (g.apply_power PKind.bonus now).score = g.score + 3) := by
  refine ⟨?_, ?_, ?_, ?_⟩
  · intro now stream roll kind pustream a g2 h ha
    simp only [Game.eat_food] at h
    split at h
    · rw [Option.bind_eq_some] at h
      obtain ⟨f, -, h⟩ := h
      rw [Option.map_eq_some'] at h
      obtain ⟨g3, hg3, h⟩ := h
      cases h
      obtain ⟨hs, hl, -⟩ := maybe_spawn_powerup_preserves hg3
      rw [hl, hs]
      rfl
    · simp only [Option.some.injEq, Prod.mk.injEq] at h
      obtain ⟨h1, -⟩ := h
      rw [← h1] at ha
      exact absurd ha (by simp)
  · intro h
    simp only [Game.eat_special_food] at h ⊢
    split at h
    · simp at h
    · rename_i sf hsf
      split at h
      · rename_i hh
        simp only [hsf, if_pos hh]
        rfl
      · simp at h
  · intro kind now
    unfold Game.apply_power
    split <;> rfl
  · intro now
    rfl

/-- Witness for C1: the concrete eat from gEat produces gEatRes and the
level invariant holds on it. -/
theorem c1_level_recompute_witness :
    gEat.eat_food 0 [(100, 100)] false PKind.speed [] = some (true, gEatRes)
    ∧ gEatRes.level = 1 + gEatRes.score / LEVEL_UP_EVERY :=
  ⟨by decide,
   (c1_level_recompute gEat).1 0 [(100, 100)] false PKind.speed [] true gEatRes (by decide) rfl⟩

/-- Claim C4 counterexample: with score 5 the game-over transition records
high = 5, yet the restart (a fresh Game built by reset_all) carries high 0:
the high score does not survive the restart. -/
theorem c4_restart_resets_high_counterexample :
    (recordHigh gC4).high = 5 ∧ (reset_all oReset).map Game.high = some 0 := by
  constructor
  · decide
  · decide

/-- Claim C4 as amended: the transition to game over updates the stored
high score to max(previous high, score), but the restart command builds an
entirely fresh Game whose high score is 0 again, together with score 0,
level 1 and LIVES_START lives: the session high score is lost on restart. -/
theorem c4_high_on_game_over (g : Game) :
    (recordHigh g).high = max g.high g.score
    ∧ (∀ o g2, reset_all o = some g2 →
        g2.high = 0 ∧ g2.score = 0 ∧ g2.level = 1 ∧ g2.lives = LIVES_START) := by
  constructor
  · rfl
  · intro o g2 h
    simp only [reset_all] at h
    repeat' split at h
    all_goals first
      | (simp only [Option.some.injEq] at h
         subst h
         exact ⟨rfl, rfl, rfl, rfl⟩)
      | simp at h

/-- Witness for C4 at the concrete oracle oReset and state gC4. -/
theorem c4_high_on_game_over_witness :
    (recordHigh gC4).high = max gC4.high gC4.score
    ∧ reset_all oReset = some gReset
    ∧ gReset.high = 0 :=
  ⟨(c4_high_on_game_over gC4).1, by decide,
   ((c4_high_on_game_over gC4).2 oReset gReset (by decide)).1⟩

-- Helper: a unit grid delta is never its own reversal.
theorem validDir_ne_opposite {d : Int × Int} (h : validDir d) : d ≠ opposite d := by
  rcases h with h | h | h | h <;> subst h <;> decide

-- Helper: a vertical request passes the gate only while motion is horizontal.
theorem validDir_snd_zero {d : Int × Int} (h : validDir d) (h0 : d.2 = 0) :
    d = (-GRID, 0) ∨ d = (GRID, 0) := by
  rcases h with h | h | h | h <;> subst h <;> simp_all

-- Helper: a horizontal request passes the gate only while motion is vertical.
theorem validDir_fst_zero {d : Int × Int} (h : validDir d) (h0 : d.1 = 0) :
    d = (0, -GRID) ∨ d = (0, GRID) := by
  rcases h with h | h | h | h <;> subst h <;> simp_all

-- Helper: the direction invariant survives handle_input.
theorem handle_input_dirInv {g : Game} (k : Key) (h : DirInv g) :
    DirInv (g.handle_input k) := by
  obtain ⟨hd, hn, hne⟩ := h
  cases k
  case up =>
    by_cases h0 : g.dir.2 = 0
    · have := validDir_snd_zero hd h0
      refine ⟨?_, ?_, ?_⟩ <;> simp only [Game.handle_input, if_pos h0]
      · exact hd
      · exact Or.inl rfl
      · rcases this with h1 | h1 <;> rw [h1] <;> decide
    · simpa only [Game.handle_input, if_neg h0] using ⟨hd, hn, hne⟩
  case down =>
    by_cases h0 : g.dir.2 = 0
    · have := validDir_snd_zero hd h0
      refine ⟨?_, ?_, ?_⟩ <;> simp only [Game.handle_input, if_pos h0]
      · exact hd
      · exact Or.inr (Or.inl rfl)
      · rcases this with h1 | h1 <;> rw [h1] <;> decide
    · simpa only [Game.handle_input, if_neg h0] using ⟨hd, hn, hne⟩
  case left =>
    by_cases h0 : g.dir.1 = 0
    · have := validDir_fst_zero hd h0
      refine ⟨?_, ?_, ?_⟩ <;> simp only [Game.handle_input, if_pos h0]
      · exact hd
      · exact Or.inr (Or.inr (Or.inl rfl))
      · rcases this with h1 | h1 <;> rw [h1] <;> decide
    · simpa only [Game.handle_input, if_neg h0] using ⟨hd, hn, hne⟩
  case right =>
    by_cases h0 : g.dir.1 = 0
    · have := validDir_fst_zero hd h0
      refine ⟨?_, ?_, ?_⟩ <;> simp only [Game.handle_input, if_pos h0]
      · exact hd
      · exact Or.inr (Or.inr (Or.inr rfl))
      · rcases this with h1 | h1 <;> rw [h1] <;> decide
    · simpa only [Game.handle_input, if_neg h0] using ⟨hd, hn, hne⟩
  case p => exact ⟨hd, hn, hne⟩
  case other => exact ⟨hd, hn, hne⟩

-- Helper: the direction invariant survives a step commit and a reset.
theorem applyEvent_dirInv {g : Game} (e : GEvent) (h : DirInv g) :
    DirInv (applyEvent g e) := by
  obtain ⟨hd, hn, hne⟩ := h
  cases e
  case key k => exact handle_input_dirInv k ⟨hd, hn, hne⟩
  case step => exact ⟨hn, hn, validDir_ne_opposite hn⟩
  case hit =>
    refine ⟨Or.inl rfl, Or.inl rfl, ?_⟩
    show ((0 : Int), -GRID) ≠ opposite (0, -GRID)
    decide

-- Helper: the direction invariant survives any event trace.
theorem runEvents_dirInv {g : Game} (evs : List GEvent) (h : DirInv g) :
    DirInv (runEvents g evs) := by
  induction evs generalizing g with
  | nil => exact h
  | cons e rest ih => exact ih (applyEvent_dirInv e h)

/-- Claim C5 (confirmed): from any state satisfying the direction invariant
(as the spawn state does), after any trace of key events, step commits and
life-loss resets, the invariant still holds and the direction the next step
commits is never the exact opposite of the committed direction; moreover a
direction key changes the buffered direction only if its axis differs from
the committed axis of motion. -/
theorem c5_no_reversal (g : Game) (hg : DirInv g) (evs : List GEvent) :
    DirInv (runEvents g evs)
    ∧ ((runEvents g evs).move_snake).dir ≠ opposite (runEvents g evs).dir
    ∧ (∀ h : Game, ∀ k : Key,
        (h.handle_input k).next_dir ≠ h.next_dir →
        ((k = Key.up ∨ k = Key.down) ∧ h.dir.2 = 0)
        ∨ ((k = Key.left ∨ k = Key.right) ∧ h.dir.1 = 0)) := by
  have hrun := runEvents_dirInv evs hg
  refine ⟨hrun, ?_, ?_⟩
  · have hcommit : ((runEvents g evs).move_snake).dir = (runEvents g evs).next_dir := rfl
    rw [hcommit]
    exact hrun.2.2
  · intro h k hch
    cases k
    case up =>
      by_cases h0 : h.dir.2 = 0
      · exact Or.inl ⟨Or.inl rfl, h0⟩
      · exact absurd (by simp only [Game.handle_input, if_neg h0]) hch
    case down =>
      by_cases h0 : h.dir.2 = 0
      · exact Or.inl ⟨Or.inr rfl, h0⟩
      · exact absurd (by simp only [Game.handle_input, if_neg h0]) hch
    case left =>
      by_cases h0 : h.dir.1 = 0
      · exact Or.inr ⟨Or.inl rfl, h0⟩
      · exact absurd (by simp only [Game.handle_input, if_neg h0]) hch
    case right =>
      by_cases h0 : h.dir.1 = 0
      · exact Or.inr ⟨Or.inr rfl, h0⟩
      · exact absurd (by simp only [Game.handle_input, if_neg h0]) hch
    case p => exact absurd rfl hch
    case other => exact absurd rfl hch

/-- Witness for C5: the invariant holds at the spawn state gBase and along
the concrete trace evs5, and the commit after that trace is no reversal. -/
theorem c5_no_reversal_witness :
    DirInv gBase
    ∧ ((runEvents gBase evs5).move_snake).dir ≠ opposite (runEvents gBase evs5).dir :=
  ⟨by decide, (c5_no_reversal gBase (by decide) evs5).2.1⟩

-- Helper: appending then dropping the oldest segment, on a nonempty list.
theorem tail_concat_of_ne_nil {α : Type} {l : List α} (a : α) (h : l ≠ []) :
    (l ++ [a]).tail = l.tail ++ [a] := by
  cases l with
  | nil => exact absurd rfl h
  | cons x t => rfl

-- Helper: the appended-then-trimmed body keeps its length.
theorem length_tail_concat {α : Type} (l : List α) (a : α) :
    ((l ++ [a]).tail).length = l.length := by
  cases l <;> simp

-- Helper: eat_food never touches the snake body or the lives.
theorem eat_food_preserves {g : Game} {now : Int} {stream : List Cell} {roll : Bool}
    {kind : PKind} {pustream : List Cell} {a : Bool} {g2 : Game}
    (h : g.eat_food now stream roll kind pustream = some (a, g2)) :
    g2.snake = g.snake ∧ g2.lives = g.lives ∧ g2.special_food = g.special_food
    ∧ g2.static_obstacles = g.static_obstacles ∧ g2.moving_obstacles = g.moving_obstacles
    ∧ g2.dir = g.dir ∧ g2.next_dir = g.next_dir := by
  simp only [Game.eat_food] at h
  split at h
  · rw [Option.bind_eq_some] at h
    obtain ⟨f, -, h⟩ := h
    rw [Option.map_eq_some'] at h
    obtain ⟨g3, hg3, h⟩ := h
    cases h
    obtain ⟨-, -, hsn, hlv, hsp, hso, hmo, -, hd, hnd⟩ := maybe_spawn_powerup_preserves hg3
    exact ⟨hsn, hlv, hsp, hso, hmo, hd, hnd⟩
  · simp only [Option.some.injEq, Prod.mk.injEq] at h
    obtain ⟨-, h2⟩ := h
    subst h2
    exact ⟨rfl, rfl, rfl, rfl, rfl, rfl, rfl⟩

-- Helper: eat_special_food never touches the snake body or the lives.
theorem eat_special_food_preserves (g : Game) :
    ((g.eat_special_food).2).snake = g.snake ∧ ((g.eat_special_food).2).lives = g.lives
    ∧ ((g.eat_special_food).2).static_obstacles = g.static_obstacles
    ∧ ((g.eat_special_food).2).moving_obstacles = g.moving_obstacles
    ∧ ((g.eat_special_food).2).food = g.food := by
  simp only [Game.eat_special_food]
  split
  · exact ⟨rfl, rfl, rfl, rfl, rfl⟩
  · split
    · exact ⟨rfl, rfl, rfl, rfl, rfl⟩
    · exact ⟨rfl, rfl, rfl, rfl, rfl⟩

-- Helper: pickup_powerup never touches the snake body or the lives.
theorem pickup_powerup_preserves (g : Game) (now : Int) :
    ((g.pickup_powerup now).2).snake = g.snake
    ∧ ((g.pickup_powerup now).2).lives = g.lives
    ∧ ((g.pickup_powerup now).2).static_obstacles = g.static_obstacles
    ∧ ((g.pickup_powerup now).2).moving_obstacles = g.moving_obstacles := by
  simp only [Game.pickup_powerup]
  cases hscan : pickupScan (rectOfCell (g.snake.getLastD (0, 0))) g.powerups with
  | none => exact ⟨rfl, rfl, rfl, rfl⟩
  | some pr =>
    obtain ⟨p, rest⟩ := pr
    simp only [Game.apply_power]
    split <;> exact ⟨rfl, rfl, rfl, rfl⟩

-- Helper: special-food expiry never touches the snake, lives or score.
theorem expire_special_preserves (g : Game) (now : Int) :
    (g.expire_special now).snake = g.snake ∧ (g.expire_special now).lives = g.lives
    ∧ (g.expire_special now).score = g.score ∧ (g.expire_special now).level = g.level
    ∧ (g.expire_special now).powerups = g.powerups := by
  simp only [Game.expire_special]
  split
  · split
    · exact ⟨rfl, rfl, rfl, rfl, rfl⟩
    · exact ⟨rfl, rfl, rfl, rfl, rfl⟩
  · exact ⟨rfl, rfl, rfl, rfl, rfl⟩

-- Helper: Game.update on success never touches the snake, lives or score.
theorem update_preserves {g : Game} {now : Int} {roll : Bool} {stream : List Cell} {g2 : Game}
    (h : g.update now roll stream = some g2) :
    g2.snake = g.snake ∧ g2.lives = g.lives ∧ g2.score = g.score ∧ g2.level = g.level := by
  simp only [Game.update] at h
  rw [Option.map_eq_some'] at h
  obtain ⟨g3, hg3, h⟩ := h
  subst h
  have hg3p : g3.snake = g.snake ∧ g3.lives = g.lives ∧ g3.score = g.score
      ∧ g3.level = g.level := by
    split at hg3
    · split at hg3
      · rw [Option.map_eq_some'] at hg3
        obtain ⟨sf, -, hg3⟩ := hg3
        subst hg3
        exact ⟨rfl, rfl, rfl, rfl⟩
      · simp only [Option.some.injEq] at hg3
        subst hg3
        exact ⟨rfl, rfl, rfl, rfl⟩
    · simp only [Option.some.injEq] at hg3
      subst hg3
      exact ⟨rfl, rfl, rfl, rfl⟩
  obtain ⟨h1, h2, h3, h4⟩ := hg3p
  obtain ⟨e1, e2, e3, e4, -⟩ := expire_special_preserves g3 now
  exact ⟨e1.trans h1, e2.trans h2, e3.trans h3, e4.trans h4⟩

/-- Claim C2 counterexample: for the concrete four-cell loop gLoop whose
next head is the cell its tail is about to vacate, the collision check on
the post-append, pre-trim body (what the claim says the step tests) is
true, yet the executed step reports no collision: the code checks
collisions only after the tail has been trimmed. -/
theorem c2_pretrim_counterexample :
    (stepGame gLoop oStep0).map (fun r => (r.ateFood, r.ateSpecial, r.collided))
      = some (false, false, false)
    ∧ Game.check_collisions (gLoop.move_snake) = true := by
  constructor
  · decide
  · decide

/-- Claim C2 as amended: the collision check runs after the new head is
appended AND after the tail is trimmed, so the post-trim body is what the
self-collision test sees; in particular a step whose new head re-enters the
cell the tail simultaneously vacates (no growth, in bounds, no obstacle
overlap, not on the remaining body) is reported as no collision and costs
no life. -/
theorem c2_collision_after_trim (g : Game) (o : StepOracle) (out : StepOut)
    (hstep : stepGame g o = some out)
    (hne : g.snake ≠ [])
    (_htail : g.newHead = g.snake.headD (0, 0))
    (hfood : g.newHead ≠ g.food)
    (hspec : ∀ sf, g.special_food = some sf → g.newHead ≠ sf)
    (hx0 : 0 ≤ (g.newHead).1) (hx1 : (g.newHead).1 < WIDTH)
    (hy0 : GRID * 2 ≤ (g.newHead).2) (hy1 : (g.newHead).2 < HEIGHT)
    (hbody : g.newHead ∉ g.snake.tail)
    (hso : ∀ r ∈ g.static_obstacles, Rect.collide (rectOfCell g.newHead) r = false)
    (hmo : ∀ m ∈ g.moving_obstacles, Rect.collide (rectOfCell g.newHead) m.rect = false) :
    out.ateFood = false ∧ out.ateSpecial = false ∧ out.collided = false
    ∧ out.state.lives = g.lives := by
  have hhead1 : (g.move_snake).snake.getLastD (0, 0) = g.newHead := by
    rw [show (g.move_snake).snake = g.snake ++ [g.newHead] from rfl, List.getLastD_concat]
  have he : (g.move_snake).eat_food o.now o.foodStream o.puRoll o.puKind o.puStream
      = some (false, g.move_snake) := by
    have hcne : ¬((g.move_snake).snake.getLastD (0, 0) = (g.move_snake).food) := by
      rw [hhead1]
      exact hfood
    simp only [Game.eat_food, if_neg hcne]
  have hb : (g.move_snake).eat_special_food = (false, g.move_snake) := by
    simp only [Game.eat_special_food]
    cases hs : (g.move_snake).special_food with
    | none => rfl
    | some sf =>
      have hcne : ¬((g.move_snake).snake.getLastD (0, 0) = sf) := by
        rw [hhead1]
        exact hspec sf hs
      simp only [if_neg hcne]
  obtain ⟨hsn4, hlv4, hso4, hmo4⟩ := pickup_powerup_preserves (g.move_snake) o.now
  have hsnake5 : ((((g.move_snake).pickup_powerup o.now).2).trim_tail false).snake
      = g.snake.tail ++ [g.newHead] := by
    have h1 : ((((g.move_snake).pickup_powerup o.now).2).trim_tail false).snake
        = (((g.move_snake).pickup_powerup o.now).2).snake.tail := rfl
    rw [h1, hsn4, show (g.move_snake).snake = g.snake ++ [g.newHead] from rfl,
      tail_concat_of_ne_nil _ hne]
  have hcol : ((((g.move_snake).pickup_powerup o.now).2).trim_tail false).check_collisions
      = false := by
    have hstat5 : ((((g.move_snake).pickup_powerup o.now).2).trim_tail false).static_obstacles
        = g.static_obstacles := hso4
    have hmov5 : ((((g.move_snake).pickup_powerup o.now).2).trim_tail false).moving_obstacles
        = g.moving_obstacles := hmo4
    simp only [Game.check_collisions, hsnake5, hstat5, hmov5, List.getLastD_concat,
      List.dropLast_concat]
    simp only [Bool.or_eq_false_iff, decide_eq_false_iff_not]
    refine ⟨⟨⟨⟨⟨⟨not_lt.mpr hx0, not_le.mpr hx1⟩, not_lt.mpr hy0⟩, not_le.mpr hy1⟩, hbody⟩, ?_⟩, ?_⟩
    · exact List.any_eq_false.mpr (fun r hr => by rw [hso r hr]; exact Bool.false_ne_true)
    · exact List.any_eq_false.mpr (fun m hm => by rw [hmo m hm]; exact Bool.false_ne_true)
  have hstep2 : stepGame g o
      = (((((g.move_snake).pickup_powerup o.now).2).trim_tail false).update
            o.now o.specialRoll o.specialStream).map
          (fun g7 => StepOut.mk false false false g7) := by
    simp only [stepGame, he, Option.some_bind]
    simp only [hb, Bool.or_self]
    simp only [hcol, Bool.false_eq_true, if_false]
  rw [hstep2] at hstep
  rw [Option.map_eq_some'] at hstep
  obtain ⟨g7, hg7, hout⟩ := hstep
  subst hout
  refine ⟨rfl, rfl, rfl, ?_⟩
  have h7 := (update_preserves hg7).2.1
  rw [h7]
  exact hlv4

/-- Witness for C2: the loop state gLoop satisfies every hypothesis and its
step is the concrete outLoop, with no collision and no life lost. -/
theorem c2_collision_after_trim_witness :
    stepGame gLoop oStep0 = some outLoop
    ∧ outLoop.collided = false
    ∧ outLoop.state.lives = gLoop.lives :=
  ⟨by decide,
   (c2_collision_after_trim gLoop oStep0 outLoop (by decide) (by decide) (by decide) (by decide)
      (fun sf h => nomatch h) (by decide) (by decide) (by decide) (by decide) (by decide)
      (by decide) (by decide)).2.2.1,
   (c2_collision_after_trim gLoop oStep0 outLoop (by decide) (by decide) (by decide) (by decide)
      (fun sf h => nomatch h) (by decide) (by decide) (by decide) (by decide) (by decide)
      (by decide) (by decide)).2.2.2⟩

/-- Claim C7 counterexample: for the concrete state gWallHit (three
segments, head about to enter the UI band) the step eats nothing, yet the
segment count changes from 3 to 2, because the collision disposition inside
the same simulation step resets the snake: the count is not otherwise
unchanged by a step. -/
theorem c7_collision_resets_length_counterexample :
    (stepGame gWallHit oStep0).map
        (fun r => (r.ateFood, r.ateSpecial, r.collided, r.state.snake.length))
      = some (false, false, true, 2)
    ∧ gWallHit.snake.length = 3 := by
  constructor
  · decide
  · decide

/-- Claim C7 as amended: in a step whose collision check comes out false,
the segment count grows by exactly 1 when eat_food or eat_special_food
reported true and is unchanged otherwise; in a step whose collision check
comes out true, the life-loss reset leaves the snake at its 2-segment spawn
configuration regardless of eating. -/
theorem c7_length_change (g : Game) (o : StepOracle) (out : StepOut)
    (hstep : stepGame g o = some out) :
    (out.collided = false →
      out.state.snake.length
        = g.snake.length + (if out.ateFood || out.ateSpecial then 1 else 0))
    ∧ (out.collided = true → out.state.snake.length = 2) := by
  simp only [stepGame] at hstep
  rw [Option.bind_eq_some] at hstep
  obtain ⟨⟨a, g2⟩, hp, hstep⟩ := hstep
  dsimp only at hstep
  obtain ⟨hsn2, -⟩ := eat_food_preserves hp
  obtain ⟨hsn3, -⟩ := eat_special_food_preserves g2
  obtain ⟨hsn4, -⟩ := pickup_powerup_preserves ((g2.eat_special_food).2) o.now
  have hsn : (((g2.eat_special_food).2.pickup_powerup o.now).2).snake
      = g.snake ++ [g.newHead] := by
    rw [hsn4, hsn3, hsn2]
    rfl
  split at hstep
  · split at hstep
    · simp only [Option.some.injEq] at hstep
      subst hstep
      constructor
      · intro hc
        simp at hc
      · intro hc2
        show (recordHigh _).snake.length = 2
        rfl
    · rw [Option.map_eq_some'] at hstep
      obtain ⟨g7, hg7, hstep⟩ := hstep
      subst hstep
      constructor
      · intro hc
        simp at hc
      · intro hc2
        show g7.snake.length = 2
        rw [(update_preserves hg7).1]
        rfl
  · rw [Option.map_eq_some'] at hstep
    obtain ⟨g7, hg7, hstep⟩ := hstep
    subst hstep
    constructor
    · intro hc2
      show g7.snake.length
          = g.snake.length + (if a || (g2.eat_special_food).1 then 1 else 0)
      rw [(update_preserves hg7).1]
      cases hab : (a || (g2.eat_special_food).1) with
      | true =>
        show (((g2.eat_special_food).2.pickup_powerup o.now).2).snake.length
            = g.snake.length + 1
        rw [hsn, List.length_append]
        rfl
      | false =>
        show ((((g2.eat_special_food).2.pickup_powerup o.now).2).snake.tail).length
            = g.snake.length + 0
        rw [hsn, length_tail_concat]
        rfl
    · intro hc
      simp at hc

/-- Witness for C7: the concrete eating step from gEatStep produces
outEatStep and its snake has grown by exactly one segment. -/
theorem c7_length_change_witness :
    stepGame gEatStep oStepFood = some outEatStep
    ∧ outEatStep.state.snake.length
        = gEatStep.snake.length
            + (if outEatStep.ateFood || outEatStep.ateSpecial then 1 else 0) :=
  ⟨by decide, (c7_length_change gEatStep oStepFood outEatStep (by decide)).1 (by decide)⟩

/-- Claim C9 counterexample: reset_all with the concrete oracle oReset
produces a state whose initial food cell (100, 100) overlaps the static
obstacle placed at (100, 100): the food spawned at construction is NOT
guaranteed free of obstacles, because the source spawns it before the
obstacle attributes exist and the obstacle generator ignores the food. -/
theorem c9_initial_food_counterexample :
    reset_all oReset = some gReset
    ∧ gReset.static_obstacles.any (fun r => Rect.collide (rectOfCell gReset.food) r) = true := by
  constructor
  · decide
  · decide

/-- Claim C9 as amended: every cell returned by the in-game spawner
(respawns after consumption, special food, power-up placement) avoids the
snake, every static and moving obstacle, and lies strictly below the UI
band; the initial spawn at construction checks only the snake and the UI
band, since the obstacles are created after it. -/
theorem c9_spawn_validity :
    (∀ g stream pos, spawnFood g stream = some pos →
        pos ∉ g.snake
        ∧ g.static_obstacles.any (fun o => Rect.collide o (rectOfCell pos)) = false
        ∧ g.moving_obstacles.any (fun m => Rect.collide m.rect (rectOfCell pos)) = false
        ∧ pos.2 > GRID * 2)
    ∧ (∀ snake stream pos, spawnFoodInit snake stream = some pos →
        pos ∉ snake ∧ pos.2 > GRID * 2) := by
  constructor
  · intro g stream pos h
    induction stream with
    | nil => simp [spawnFood] at h
    | cons p rest ih =>
      simp only [spawnFood] at h
      split at h
      · rename_i hfree
        simp only [Option.some.injEq] at h
        subst h
        simp only [foodFree, Bool.and_eq_true, decide_eq_true_eq, decide_eq_false_iff_not,
          Bool.not_eq_true', Bool.or_eq_false_iff] at hfree
        exact ⟨hfree.1.1, hfree.1.2.1, hfree.1.2.2, hfree.2⟩
      · exact ih h
  · intro snake stream pos h
    induction stream with
    | nil => simp [spawnFoodInit] at h
    | cons p rest ih =>
      simp only [spawnFoodInit] at h
      split at h
      · rename_i hfree
        simp only [Option.some.injEq] at h
        subst h
        simp only [Bool.and_eq_true, decide_eq_true_eq, decide_eq_false_iff_not] at hfree
        exact ⟨hfree.1, hfree.2⟩
      · exact ih h

/-- Witness for C9: on the concrete state gReset the spawner rejects the
obstacle-covered cell (100, 100) and returns (300, 300), which avoids the
snake and lies below the UI band. -/
theorem c9_spawn_validity_witness :
    spawnFood gReset [(100, 100), (300, 300)] = some (300, 300)
    ∧ ((300 : Int), (300 : Int)) ∉ gReset.snake
    ∧ ((300 : Int), (300 : Int)).2 > GRID * 2 :=
  ⟨by decide,
   (c9_spawn_validity.1 gReset [(100, 100), (300, 300)] (300, 300) (by decide)).1,
   (c9_spawn_validity.1 gReset [(100, 100), (300, 300)] (300, 300) (by decide)).2.2.2⟩

/-- Claim C10 (confirmed): for every state the current fps lies in [6, 30],
is nonzero as a rational (so the step duration 1/fps is well defined), the
step duration is at least 1/30, and for every accumulated frame time the
guard of the fixed-step loop fails after finitely many subtractions of the
step duration. -/
theorem c10_fps_bounds (g : Game) (now : Int) (timer : ℚ) :
    6 ≤ (g.current_fps now).1
    ∧ (g.current_fps now).1 ≤ MAX_FPS
    ∧ ((g.current_fps now).1 : ℚ) ≠ 0
    ∧ (1 : ℚ) / 30 ≤ 1 / ((g.current_fps now).1 : ℚ)
    ∧ ∃ n : ℕ, timer - (n : ℚ) * (1 / ((g.current_fps now).1 : ℚ))
        < 1 / ((g.current_fps now).1 : ℚ) := by
  have hfst : (g.current_fps now).1
      = max 6 (min MAX_FPS (Int.floor ((FPS_BASE + ((g.level : ℚ) - 1) * (3 / 2))
          * (g.power_multiplier now).1))) := rfl
  have h6 : 6 ≤ (g.current_fps now).1 := by
    rw [hfst]; exact le_max_left _ _
  have h30 : (g.current_fps now).1 ≤ MAX_FPS := by
    rw [hfst]
    exact max_le (by norm_num [MAX_FPS]) (min_le_left _ _)
  have hq6 : (6 : ℚ) ≤ ((g.current_fps now).1 : ℚ) := by exact_mod_cast h6
  have hq30 : ((g.current_fps now).1 : ℚ) ≤ 30 := by
    have : ((g.current_fps now).1 : ℚ) ≤ ((MAX_FPS : Int) : ℚ) := by exact_mod_cast h30
    simpa [MAX_FPS] using this
  have hpos : (0 : ℚ) < ((g.current_fps now).1 : ℚ) := lt_of_lt_of_le (by norm_num) hq6
  refine ⟨h6, h30, ne_of_gt hpos, one_div_le_one_div_of_le hpos hq30, ?_⟩
  obtain ⟨n, hn⟩ := exists_nat_gt (timer * ((g.current_fps now).1 : ℚ))
  refine ⟨n, ?_⟩
  rw [sub_lt_iff_lt_add]
  have hlt : timer * ((g.current_fps now).1 : ℚ) < (n : ℚ) + 1 :=
    lt_of_lt_of_le hn (by norm_num)
  calc timer = timer * ((g.current_fps now).1 : ℚ) / ((g.current_fps now).1 : ℚ) := by
        field_simp
    _ < ((n : ℚ) + 1) / ((g.current_fps now).1 : ℚ) := by
        exact div_lt_div_of_pos_right hlt hpos
    _ = 1 / ((g.current_fps now).1 : ℚ) + (n : ℚ) * (1 / ((g.current_fps now).1 : ℚ)) := by
        ring

end Snake
